import Mathlib

/-!
Verification development for the VIP-commerce image-scraper pipeline
(`src/download_images.py`, `src/fetch_products_map.py`).

The Python code is shallowly embedded: the BeautifulSoup queries made by
`_try_get_image_url_requests` are modelled by a structure recording the
result of each query, network and Selenium effects are modelled by
oracle functions in an environment record, and the filesystem is a map
from paths to byte contents.
-/

set_option autoImplicit false

namespace Scraper

/-! ### String containment (Python's `in` operator on strings) -/

/-- Does the character list start with the pattern list? -/
def listStartsWith : List Char → List Char → Bool
  | _, [] => true
  | [], _ :: _ => false
  | a :: as, b :: bs => a = b && listStartsWith as bs

/-- Does the character list contain the pattern as a contiguous sublist? -/
def containsSub (pat : List Char) : List Char → Bool
  | [] => listStartsWith [] pat
  | c :: rest => listStartsWith (c :: rest) pat || containsSub pat rest

/-- Python's `pat in s` on strings. -/
def strContains (s pat : String) : Bool :=
  containsSub pat.toList s.toList

/-! ### The parsed HTML document

`_try_get_image_url_requests` makes four kinds of BeautifulSoup queries
against the fetched page.  `HtmlDoc` records the answer each query would
give on that page, so the extraction logic can be embedded faithfully. -/

/-- An `img` element: its `src` and `data-src` attributes (absent = `none`). -/
structure Img where
  src : Option String
  dataSrc : Option String
  deriving DecidableEq, Repr

/-- The answers the BeautifulSoup queries of `_try_get_image_url_requests`
give on one HTML document. -/
structure HtmlDoc where
  /-- `soup.find('meta', property='og:image')`: `none` when the tag is absent,
  otherwise the value of its `content` attribute (which may itself be absent). -/
  ogImageMeta : Option (Option String)
  /-- `soup.find('vip-image')` then `vip.find('img')`: outer `none` when the
  `vip-image` tag is absent, inner `none` when it holds no `img`. -/
  vipImageImg : Option (Option Img)
  /-- `soup.select_one('vip-image.m-auto img, img.m-auto, img.vip-image')`. -/
  selectorImg : Option Img
  /-- `soup.find_all('img')`, in document order. -/
  imgs : List Img
  deriving DecidableEq, Repr

/-- Python truthiness on an optional string: `None` and `""` are falsy. -/
def truthy : Option String → Option String
  | some s => if s = "" then none else some s
  | none => none

/-- `img.get('src') or img.get('data-src')`, then checked for truthiness. -/
def srcOf (i : Img) : Option String :=
  match truthy i.src with
  | some s => some s
  | none => truthy i.dataSrc

/-- Step 1 of `_try_get_image_url_requests`: the Open-Graph meta content,
returned only when the tag exists and its `content` attribute is truthy. -/
def ogResult (d : HtmlDoc) : Option String :=
  match d.ogImageMeta with
  | some content => truthy content
  | none => none

/-- Step 2: the nested `img` of the `vip-image` tag. -/
def vipResult (d : HtmlDoc) : Option String :=
  match d.vipImageImg with
  | some (some i) => srcOf i
  | _ => none

/-- Step 3: the common CSS selectors. -/
def selResult (d : HtmlDoc) : Option String :=
  match d.selectorImg with
  | some i => srcOf i
  | none => none

/-- The product-asset path fragments of the step-4 heuristic. -/
def productFragments : List String :=
  ["/produto", "/produtos", "/products", "/uploads", "/images"]

/-- Step 4 of `_try_get_image_url_requests`: scan all `img` elements,
skipping sources containing `default` or `placeholder`, returning at once a
source containing a product-asset fragment, else remembering the first
non-placeholder source as a last-resort candidate. -/
def scanImgs : List Img → Option String → Option String
  | [], cand => cand
  | i :: rest, cand =>
    match srcOf i with
    | none => scanImgs rest cand
    | some s =>
      if strContains s "default" || strContains s "placeholder" then
        scanImgs rest cand
      else if productFragments.any (fun f => strContains s f) then
        some s
      else
        scanImgs rest (if cand.isNone then some s else cand)

/-- The extraction heuristics of `_try_get_image_url_requests` (lines 92-128),
in strict priority order with short-circuit on first truthy result. -/
def extractFromSoup (d : HtmlDoc) : Option String :=
  match ogResult d with
  | some c => some c
  | none =>
    match vipResult d with
    | some s => some s
    | none =>
      match selResult d with
      | some s => some s
      | none => scanImgs d.imgs none

/-- Outcome of `sess.get(page_url)` in the fast path: `err` covers any
transport exception or parse anomaly (caught by the surrounding
`try/except`), `ok` carries the HTTP status and the parsed document. -/
inductive FetchResult where
  | err
  | ok (status : Nat) (doc : HtmlDoc)
  deriving Repr

/-- `_try_get_image_url_requests`: `None` on any exception, `None` on a
non-200 status, otherwise the soup extraction. -/
def tryGetImageUrlRequests : FetchResult → Option String
  | .err => none
  | .ok status doc => if status ≠ 200 then none else extractFromSoup doc

/-! ### Filesystem and the download gate -/

/-- Image bytes, abstracted. -/
abbrev Bytes := List Nat

/-- The filesystem: each path either holds some bytes or does not exist. -/
abbrev FS := String → Option Bytes

/-- Writing bytes at a path. -/
def FS.write (fs : FS) (p : String) (b : Bytes) : FS :=
  fun q => if q = p then some b else fs q

/-- Outcome of `sess.get(image_url)` followed by `raise_for_status()`:
`err` covers any transport error or non-2xx status (the exception is raised
before the output file is opened). -/
inductive ImgFetch where
  | err
  | ok (b : Bytes)

/-- How the `open(output_path, 'wb')` / `f.write(...)` pair behaves:
the open may fail (permission) before touching nothing beyond the truncate,
the write may complete, or it may stop after `k` bytes (disk full). -/
inductive WriteBehavior where
  | fullWrite
  | failedWrite (k : Nat)
  | openFail

/-- `_download_image_bytes` (lines 134-143): fetch the image, then
`open(output_path, 'wb')` (which creates/truncates the file) and write the
bytes.  Any exception is caught and reported as `false`; there is no retry
and no cleanup of a partially written file. -/
def downloadImageBytes (fetch : ImgFetch) (wb : WriteBehavior)
    (outputPath : String) (fs : FS) : Bool × FS :=
  match fetch with
  | .err => (false, fs)
  | .ok b =>
    match wb with
    | .openFail => (false, fs)
    | .fullWrite => (true, fs.write outputPath b)
    | .failedWrite k => (false, fs.write outputPath (b.take k))

/-! ### Tasks, configuration and the per-task workers -/

/-- One unit of work: `(product_id, codigo_erp)` as produced by
`product_map.items()`.  `codigoErp` is the storage key. -/
structure Task where
  productId : String
  codigoErp : String
  deriving DecidableEq, Repr

/-- `constants.RAW_IMAGES_DIR` (its concrete value is environment-dependent
and irrelevant to the claims). -/
def rawImagesDir : String := "src/assets/raw_images"

/-- `os.path.join(constants.RAW_IMAGES_DIR, f-string of codigo_erp + .jpg)`. -/
def outputPath (t : Task) : String :=
  rawImagesDir ++ "/" ++ t.codigoErp ++ ".jpg"

/-- Python's `s.rstrip(slash)`: drop trailing `/` characters. -/
def rstripSlashes (s : String) : String :=
  String.mk ((s.toList.reverse.dropWhile (fun c => c = '/')).reverse)

/-- Base-URL construction shared by `_http_attempt` (lines 340-342) and
`download_image_worker` (lines 273-275): `(DOMAIN_KEY or "").rstrip('/')`,
then prefix `https://` when a scheme is missing. -/
def buildBase (domainKey : Option String) : String :=
  let base := rstripSlashes (domainKey.getD "")
  if base ≠ "" && !(base.startsWith "http://" || base.startsWith "https://") then
    "https://" ++ base
  else
    base

/-- The candidate page URLs, tried in order: by product id, then by
storage key. -/
def candidateUrls (base : String) (t : Task) : List String :=
  [base ++ "/produto/" ++ t.productId, base ++ "/produto/" ++ t.codigoErp]

/-- The ambient effects of one run: configuration and the deterministic
outcome of each network / browser / filesystem-write interaction. -/
structure Env where
  /-- `constants.DOMAIN_KEY` (`none` = unset environment variable). -/
  domainKey : Option String
  /-- Outcome of fetching a candidate page over plain HTTP. -/
  fetchPage : String → FetchResult
  /-- Outcome of fetching an image URL's bytes. -/
  fetchImage : String → ImgFetch
  /-- How the write of the bytes fetched from this image URL behaves. -/
  writeBehavior : String → WriteBehavior
  /-- Selenium DOM query on a candidate page: outer `none` is a
  `TimeoutException`/`WebDriverException`, inner option is the `src`
  attribute of the located `vip-image.m-auto img` element. -/
  seleniumDom : String → Option (Option String)
  /-- Is `driver_process_global` non-`None` in the worker? -/
  driverUp : Bool

/-- The fast-path URL loop of `_http_attempt` (lines 347-352): extract via
HTTP, download on success, and on a failed download move on to the next
candidate URL. -/
def tryUrlsHttp (env : Env) (pathOut : String) (fs : FS) :
    List String → Bool × FS
  | [] => (false, fs)
  | url :: rest =>
    match tryGetImageUrlRequests (env.fetchPage url) with
    | none => tryUrlsHttp env pathOut fs rest
    | some imageUrl =>
      let r := downloadImageBytes (env.fetchImage imageUrl)
        (env.writeBehavior imageUrl) pathOut fs
      if r.1 then (true, r.2) else tryUrlsHttp env pathOut r.2 rest

/-- `_http_attempt` (lines 335-353): skip when the output file exists, fail
(per task) when the domain is empty, else try the candidate URLs. -/
def httpAttempt (env : Env) (fs : FS) (t : Task) : Bool × FS :=
  if (fs (outputPath t)).isSome then (true, fs)
  else
    let base := buildBase env.domainKey
    if base = "" then (false, fs)
    else tryUrlsHttp env (outputPath t) fs (candidateUrls base t)

/-- The Selenium extraction `try_get_image_url` (lines 224-267), paired with
the list of pages the browser actually navigated to: `None` without
navigating when the driver is down; otherwise navigate, and reject a missing
or empty `src` and one containing `default_image`. -/
def seleniumLookup (env : Env) (url : String) : Option String × List String :=
  if env.driverUp then
    (match env.seleniumDom url with
     | some (some s) =>
       if s = "" || strContains s "default_image" then none else some s
     | _ => none,
     [url])
  else (none, [])

/-- The URL loop of `download_image_worker` (lines 288-309), returning the
result, the final filesystem, and the pages the browser navigated to.
Per candidate URL the HTTP fast path runs first and Selenium only on its
failure; once an image URL is extracted the task succeeds or fails with the
download, with no further candidates tried. -/
def tryUrlsWorker (env : Env) (pathOut : String) (fs : FS) :
    List String → Bool × FS × List String
  | [] => (false, fs, [])
  | url :: rest =>
    match tryGetImageUrlRequests (env.fetchPage url) with
    | some imageUrl =>
      let r := downloadImageBytes (env.fetchImage imageUrl)
        (env.writeBehavior imageUrl) pathOut fs
      (r.1, r.2, [])
    | none =>
      let sel := seleniumLookup env url
      match sel.1 with
      | some imageUrl =>
        let r := downloadImageBytes (env.fetchImage imageUrl)
          (env.writeBehavior imageUrl) pathOut fs
        (r.1, r.2, sel.2)
      | none =>
        let rec1 := tryUrlsWorker env pathOut fs rest
        (rec1.1, rec1.2.1, sel.2 ++ rec1.2.2)

/-- `download_image_worker` (lines 211-309): skip when the output file
exists, fail when the domain is empty, else run the per-URL loop. -/
def downloadImageWorker (env : Env) (fs : FS) (t : Task) :
    Bool × FS × List String :=
  if (fs (outputPath t)).isSome then (true, fs, [])
  else
    let base := buildBase env.domainKey
    if base = "" then (false, fs, [])
    else tryUrlsWorker env (outputPath t) fs (candidateUrls base t)

/-! ### The task source (`fetch_products_map.py`) -/

/-- Insertion into a Python dict modelled as an association list: an update
keeps the key's original position, a new key is appended. -/
def dictInsert (m : List (String × String)) (k v : String) :
    List (String × String) :=
  if m.any (fun p => p.1 = k) then
    m.map (fun p => if p.1 = k then (k, v) else p)
  else
    m ++ [(k, v)]

/-- The inner aggregation loop of `fetch_products_map.run` (lines 93-98):
each product's `produto_id`/`codigo_erp` pair is inserted only when both
are truthy (`if produto_id and codigo_erp`). -/
def insertProduct (m : List (String × String))
    (p : Option String × Option String) : List (String × String) :=
  match truthy p.1, truthy p.2 with
  | some pid, some erp => dictInsert m pid erp
  | _, _ => m

/-- The loop over one order's product list (lines 94-98). -/
def addProducts : List (String × String) →
    List (Option String × Option String) → List (String × String)
  | m, [] => m
  | m, p :: rest => addProducts (insertProduct m p) rest

/-- The outer loop of `fetch_products_map.run` (lines 91-99): fold the
per-order product lists (a `none` or empty list is skipped) into the
accumulated product map. -/
def buildProductMapAux : List (String × String) →
    List (Option (List (Option String × Option String))) →
    List (String × String)
  | m, [] => m
  | m, none :: rest => buildProductMapAux m rest
  | m, some ps :: rest => buildProductMapAux (addProducts m ps) rest

/-- `fetch_products_map.run` aggregation (lines 89-99), started from the
empty dict.  `list(product_map.items())` is then exactly this list. -/
def buildProductMap
    (lists : List (Option (List (Option String × Option String)))) :
    List (String × String) :=
  buildProductMapAux [] lists

/-- The task list consumed by `download_images.run`
(`tasks = list(product_map.items())`). -/
def tasksOfMap (m : List (String × String)) : List Task :=
  m.map (fun p => ⟨p.1, p.2⟩)

/-! ### The pipeline orchestrator (`download_images.run`, lines 311-396)

The two stages run their tasks concurrently with unordered completion; the
embedding threads the filesystem sequentially in submission order, which
agrees with the code on every per-task result and on all counts (each
task's effects touch only its own output path and the collected results
are order-insensitive counts). -/

/-- Stage 1: `_http_attempt` over every task (a worker exception is already
folded into a `false` result in the embedding of `_http_attempt`). -/
def runFastStage (env : Env) (fs : FS) : List Task → List Bool × FS
  | [] => ([], fs)
  | t :: ts =>
    let r := httpAttempt env fs t
    let rest := runFastStage env r.2 ts
    (r.1 :: rest.1, rest.2)

/-- Stage 2: `download_image_worker` over the residual tasks. -/
def runSlowStage (env : Env) (fs : FS) : List Task → List Bool × FS
  | [] => ([], fs)
  | t :: ts =>
    let r := downloadImageWorker env fs t
    let rest := runSlowStage env r.2.1 ts
    (r.1 :: rest.1, rest.2)

/-- The observable outcome of one `run()` invocation. -/
structure RunResult where
  /-- Per-task fast-path results, aligned with the task list. -/
  fastResults : List Bool
  /-- `fast_failures`: the tasks whose fast attempt returned `False`. -/
  fastFailures : List Task
  /-- `fast_success = total_tasks - len(fast_failures)`. -/
  fastSuccess : Nat
  /-- Did the Selenium stage run? -/
  slowRan : Bool
  /-- The task list handed to the Selenium pool (empty when skipped). -/
  slowInput : List Task
  /-- `selenium_success`. -/
  slowSuccess : Nat
  /-- `total_success = fast_success + selenium_success`. -/
  totalSuccess : Nat
  /-- `len(tasks)`. -/
  totalTasks : Nat
  /-- The filesystem after both stages. -/
  finalFs : FS

/-- `download_images.run` (lines 311-396): fast stage over all tasks,
partition off the failures, and run the Selenium stage over exactly the
residual set when it is non-empty and the browser binaries exist. -/
def runFull (env : Env) (binariesPresent : Bool) (fs : FS)
    (tasks : List Task) : RunResult :=
  let fr := runFastStage env fs tasks
  let fastFailures :=
    ((tasks.zip fr.1).filter (fun p => !p.2)).map Prod.fst
  let fastSuccess := tasks.length - fastFailures.length
  if !fastFailures.isEmpty && binariesPresent then
    let sr := runSlowStage env fr.2 fastFailures
    { fastResults := fr.1, fastFailures := fastFailures,
      fastSuccess := fastSuccess, slowRan := true,
      slowInput := fastFailures,
      slowSuccess := (sr.1.filter id).length,
      totalSuccess := fastSuccess + (sr.1.filter id).length,
      totalTasks := tasks.length, finalFs := sr.2 }
  else
    { fastResults := fr.1, fastFailures := fastFailures,
      fastSuccess := fastSuccess, slowRan := false,
      slowInput := [], slowSuccess := 0,
      totalSuccess := fastSuccess,
      totalTasks := tasks.length, finalFs := fr.2 }

/-! ### Concrete fixtures used by witnesses and counterexamples -/

/-- The empty filesystem. -/
def emptyFs : FS := fun _ => none

/-- A fixed sample task. -/
def taskPK : Task := ⟨"p", "k"⟩

/-- An environment whose `DOMAIN_KEY` is the empty string and whose network
always errors. -/
def envNoDomain : Env :=
  { domainKey := some ""
    fetchPage := fun _ => .err
    fetchImage := fun _ => .err
    writeBehavior := fun _ => .fullWrite
    seleniumDom := fun _ => none
    driverUp := false }

/-- An environment with a domain but a dead network and no browser. -/
def envDeadNet : Env :=
  { domainKey := some "d"
    fetchPage := fun _ => .err
    fetchImage := fun _ => .err
    writeBehavior := fun _ => .fullWrite
    seleniumDom := fun _ => none
    driverUp := false }

/-- An environment where every page needs the browser: plain HTTP errors,
the browser finds the image, and the image downloads fine. -/
def envBrowserOnly : Env :=
  { domainKey := some "d"
    fetchPage := fun _ => .err
    fetchImage := fun _ => .ok [7]
    writeBehavior := fun _ => .fullWrite
    seleniumDom := fun _ => some (some "https://d/i.jpg")
    driverUp := true }

/-- A document whose only image URL is an og:image content containing the
placeholder sentinel. -/
def placeholderOgDoc : HtmlDoc :=
  ⟨some (some "https://host/placeholder/img.jpg"), none, none, []⟩

/-- A document with no og:image, vendor tag, or selector match, and a single
`img` whose source contains the `default` sentinel. -/
def onlyDefaultImgDoc : HtmlDoc :=
  ⟨none, none, none, [⟨some "x/default.png", none⟩]⟩

/-- A document whose only extraction result comes from the heuristic scan. -/
def plainImgDoc : HtmlDoc :=
  ⟨none, none, none, [⟨some "https://d/i.jpg", none⟩]⟩

/-- An environment whose pages resolve over plain HTTP but whose image
download fails before the output file is opened. -/
def envHttpExtractDlFail : Env :=
  { domainKey := some "d"
    fetchPage := fun _ => .ok 200 plainImgDoc
    fetchImage := fun _ => .err
    writeBehavior := fun _ => .fullWrite
    seleniumDom := fun _ => none
    driverUp := false }

/-- The filesystem left behind by a partial (failed) write of the sample
task's image. -/
def partialFs : FS :=
  (downloadImageBytes (.ok [1, 2, 3]) (.failedWrite 1)
    (outputPath taskPK) emptyFs).2

/-- A sample API response: one order with one valid product. -/
def sampleLists : List (Option (List (Option String × Option String))) :=
  [some [(some "p", some "k")]]

/-- A sample API response in which two distinct product ids share one
storage key. -/
def dupKeyLists : List (Option (List (Option String × Option String))) :=
  [some [(some "p1", some "k"), (some "p2", some "k")]]

/-! ### Helper lemmas -/

theorem httpAttempt_existing (env : Env) (fs : FS) (t : Task)
    (h : (fs (outputPath t)).isSome = true) :
    httpAttempt env fs t = (true, fs) := by
  simp [httpAttempt, h]

theorem downloadImageWorker_existing (env : Env) (fs : FS) (t : Task)
    (h : (fs (outputPath t)).isSome = true) :
    downloadImageWorker env fs t = (true, fs, []) := by
  simp [downloadImageWorker, h]

theorem runFastStage_all_existing (env : Env) (fs : FS) :
    ∀ tasks : List Task, (∀ u ∈ tasks, (fs (outputPath u)).isSome = true) →
      runFastStage env fs tasks = (tasks.map fun _ => true, fs) := by
  intro tasks
  induction tasks with
  | nil => intro _; rfl
  | cons t ts ih =>
    intro hall
    have ht := httpAttempt_existing env fs t (hall t (by simp))
    have hts := ih (fun u hu => hall u (by simp [hu]))
    simp [runFastStage, ht, hts]

theorem runSlowStage_all_existing (env : Env) (fs : FS) :
    ∀ tasks : List Task, (∀ u ∈ tasks, (fs (outputPath u)).isSome = true) →
      runSlowStage env fs tasks = (tasks.map fun _ => true, fs) := by
  intro tasks
  induction tasks with
  | nil => intro _; rfl
  | cons t ts ih =>
    intro hall
    have ht := downloadImageWorker_existing env fs t (hall t (by simp))
    have hts := ih (fun u hu => hall u (by simp [hu]))
    simp [runSlowStage, ht, hts]

/-! ### Claim theorems -/

/-- C8: for every input (any HTML, including malformed documents), the
image-URL extractor never raises: every transport/parse anomaly and every
non-200 status yields `None`.  In the embedding `tryGetImageUrlRequests` is
a total function whose `.err` case models the `except` clause of
`_try_get_image_url_requests`. -/
theorem C8_extractor_never_raises :
    tryGetImageUrlRequests .err = none ∧
    ∀ (status : Nat) (doc : HtmlDoc), status ≠ 200 →
      tryGetImageUrlRequests (.ok status doc) = none := by
  refine ⟨rfl, ?_⟩
  intro s d h
  simp [tryGetImageUrlRequests, h]

theorem C8_extractor_never_raises_witness :
    (404 ≠ 200) ∧
      tryGetImageUrlRequests (.ok 404 placeholderOgDoc) = none :=
  ⟨by decide,
   C8_extractor_never_raises.2 404 placeholderOgDoc (by decide)⟩

/-- C3: a task whose output file already exists is reported successful by
both the fast stage and the browser stage without any fetch or write (the
filesystem is returned unchanged and the browser navigates nowhere), and a
whole stage run over tasks whose outputs all exist reports all-success and
leaves the filesystem unchanged. -/
theorem C3_skip_existing (env : Env) (fs : FS) (t : Task)
    (h : (fs (outputPath t)).isSome = true) (tasks : List Task)
    (hall : ∀ u ∈ tasks, (fs (outputPath u)).isSome = true) :
    httpAttempt env fs t = (true, fs) ∧
    downloadImageWorker env fs t = (true, fs, []) ∧
    runFastStage env fs tasks = (tasks.map fun _ => true, fs) ∧
    runSlowStage env fs tasks = (tasks.map fun _ => true, fs) :=
  ⟨httpAttempt_existing env fs t h,
   downloadImageWorker_existing env fs t h,
   runFastStage_all_existing env fs tasks hall,
   runSlowStage_all_existing env fs tasks hall⟩

theorem C3_skip_existing_witness :
    ((partialFs (outputPath taskPK)).isSome = true) ∧
    httpAttempt envDeadNet partialFs taskPK = (true, partialFs) ∧
    downloadImageWorker envDeadNet partialFs taskPK = (true, partialFs, []) ∧
    runFastStage envDeadNet partialFs [taskPK] = ([true], partialFs) ∧
    runSlowStage envDeadNet partialFs [taskPK] = ([true], partialFs) := by
  have h : (partialFs (outputPath taskPK)).isSome = true := by
    simp [partialFs, downloadImageBytes, FS.write]
  have hc := C3_skip_existing envDeadNet partialFs taskPK h [taskPK]
    (by intro u hu; simp at hu; subst hu; exact h)
  exact ⟨h, hc.1, hc.2.1, by simpa using hc.2.2.1, by simpa using hc.2.2.2⟩

/-- C7 counterexample: the download gate is not atomic.  A write that fails
after one byte (`failedWrite 1`) reports failure but leaves a truncated
file at the output path, and a later run's fast attempt then reports the
task successful (`AlreadyPresent`) off that partial file. -/
theorem C7_partial_write_counterexample :
    (downloadImageBytes (.ok [1, 2, 3]) (.failedWrite 1)
        (outputPath taskPK) emptyFs).1 = false ∧
    partialFs (outputPath taskPK) = some [1] ∧
    httpAttempt envDeadNet partialFs taskPK = (true, partialFs) := by
  refine ⟨rfl, ?_, ?_⟩
  · simp [partialFs, downloadImageBytes, FS.write]
  · apply httpAttempt_existing
    simp [partialFs, downloadImageBytes, FS.write]

/-- C7 amended: a fetch failure is reported as failure with the filesystem
untouched and the gate performs no retry, but the write is not atomic: a
write that stops after `k` bytes reports failure while leaving the first
`k` bytes at the output path. -/
theorem C7_download_gate_amended (b : Bytes) (k : Nat) (p : String)
    (fs : FS) (wb : WriteBehavior) :
    downloadImageBytes .err wb p fs = (false, fs) ∧
    (downloadImageBytes (.ok b) (.failedWrite k) p fs).1 = false ∧
    (downloadImageBytes (.ok b) (.failedWrite k) p fs).2 p = some (b.take k) := by
  refine ⟨rfl, rfl, ?_⟩
  simp [downloadImageBytes, FS.write]

/-- C4 counterexample: with `DOMAIN_KEY` empty the pipeline does not abort
before the stages: the fast stage still processes the task (reporting it
failed), the Selenium stage still runs over it, and a task whose output
file already exists is even reported successful — per-task work is
attempted in both stages despite the missing mandatory configuration. -/
theorem C4_no_abort_counterexample :
    (runFull envNoDomain true emptyFs [taskPK]).fastResults = [false] ∧
    (runFull envNoDomain true emptyFs [taskPK]).slowRan = true ∧
    (runFull envNoDomain true emptyFs [taskPK]).slowInput = [taskPK] ∧
    (runFull envNoDomain true emptyFs [taskPK]).totalSuccess = 0 ∧
    httpAttempt envNoDomain partialFs taskPK = (true, partialFs) := by
  refine ⟨?_, ?_, ?_, ?_, ?_⟩
  · rfl
  · rfl
  · rfl
  · rfl
  · apply httpAttempt_existing
    simp [partialFs, downloadImageBytes, FS.write]

/-- C4 amended: with `DOMAIN_KEY` empty (or any value whose built base URL
is empty) the pipeline does not abort; each task whose output file does not
exist is still attempted by both stages, fails in each (with an error
logged per attempt), and the run completes counting those tasks failed. -/
theorem C4_empty_domain_amended (env : Env) (fs : FS) (t : Task)
    (hdom : buildBase env.domainKey = "")
    (habs : fs (outputPath t) = none) :
    httpAttempt env fs t = (false, fs) ∧
    downloadImageWorker env fs t = (false, fs, []) := by
  constructor
  · simp [httpAttempt, habs, hdom]
  · simp [downloadImageWorker, habs, hdom]

theorem C4_empty_domain_amended_witness :
    buildBase envNoDomain.domainKey = "" ∧
    emptyFs (outputPath taskPK) = none ∧
    httpAttempt envNoDomain emptyFs taskPK = (false, emptyFs) ∧
    downloadImageWorker envNoDomain emptyFs taskPK = (false, emptyFs, []) := by
  have h := C4_empty_domain_amended envNoDomain emptyFs taskPK (by rfl) (by rfl)
  exact ⟨rfl, rfl, h.1, h.2⟩

/-- The step-4 scan returns its incoming candidate unchanged when every
image source carries a sentinel token. -/
theorem scanImgs_all_sentinel :
    ∀ (imgs : List Img),
      (∀ i ∈ imgs, ∀ s, srcOf i = some s →
        (strContains s "default" || strContains s "placeholder") = true) →
      ∀ cand, scanImgs imgs cand = cand := by
  intro imgs
  induction imgs with
  | nil => intro _ cand; rfl
  | cons i rest ih =>
    intro h cand
    have hrest := ih (fun j hj => h j (by simp [hj]))
    cases hs : srcOf i with
    | none => simp [scanImgs, hs, hrest]
    | some s =>
      have := h i (by simp) s hs
      simp [scanImgs, hs, this, hrest]

/-- C2 counterexample: a document whose only image URL is an `og:image`
content containing the placeholder sentinel — the extractor returns that
URL as success instead of `None`, because the sentinel filter of
`_try_get_image_url_requests` is applied only in the step-4 heuristic scan,
not to the Open-Graph (or vendor-tag) results. -/
theorem C2_placeholder_counterexample :
    strContains "https://host/placeholder/img.jpg" "placeholder" = true ∧
    tryGetImageUrlRequests (.ok 200 placeholderOgDoc) =
      some "https://host/placeholder/img.jpg" := by
  exact ⟨by decide, rfl⟩

/-- C2 amended: the placeholder-sentinel filter applies only to the step-4
heuristic scan of `img` elements.  When the document yields nothing from
the og:image tag, the vendor image tag, and the CSS selectors, and every
`img` source contains `default` or `placeholder`, the extractor returns
`None`; a sentinel URL delivered through the earlier steps is returned as
success (see the counterexample). -/
theorem C2_placeholder_rejection_amended (status : Nat) (d : HtmlDoc)
    (hog : ogResult d = none) (hvip : vipResult d = none)
    (hsel : selResult d = none)
    (himg : ∀ i ∈ d.imgs, ∀ s, srcOf i = some s →
      (strContains s "default" || strContains s "placeholder") = true) :
    tryGetImageUrlRequests (.ok status d) = none := by
  by_cases hst : status = 200
  · subst hst
    have hscan := scanImgs_all_sentinel d.imgs himg none
    simp [tryGetImageUrlRequests, extractFromSoup, hog, hvip, hsel, hscan]
  · simp [tryGetImageUrlRequests, hst]

theorem C2_placeholder_rejection_amended_witness :
    (ogResult onlyDefaultImgDoc = none ∧
     vipResult onlyDefaultImgDoc = none ∧
     selResult onlyDefaultImgDoc = none ∧
     (∀ i ∈ onlyDefaultImgDoc.imgs, ∀ s, srcOf i = some s →
       (strContains s "default" || strContains s "placeholder") = true)) ∧
    tryGetImageUrlRequests (.ok 200 onlyDefaultImgDoc) = none := by
  refine ⟨⟨rfl, rfl, rfl, ?_⟩, ?_⟩
  · decide
  · exact C2_placeholder_rejection_amended 200 onlyDefaultImgDoc rfl rfl rfl
      (by decide)

/-- A URL the browser navigated to is the URL the lookup was asked for. -/
theorem seleniumLookup_nav (env : Env) (u url : String)
    (h : url ∈ (seleniumLookup env u).2) : url = u := by
  cases hd : env.driverUp <;> simp [seleniumLookup, hd] at h
  exact h

/-- Every page in the worker URL loop's navigation trace had a fast-path
miss. -/
theorem tryUrlsWorker_nav_fast_none (env : Env) (pathOut : String) :
    ∀ (urls : List String) (fs : FS) (url : String),
      url ∈ (tryUrlsWorker env pathOut fs urls).2.2 →
      tryGetImageUrlRequests (env.fetchPage url) = none := by
  intro urls
  induction urls with
  | nil => intro fs url h; simp [tryUrlsWorker] at h
  | cons u rest ih =>
    intro fs url h
    cases hf : tryGetImageUrlRequests (env.fetchPage u) with
    | some i => simp [tryUrlsWorker, hf] at h
    | none =>
      cases hs : (seleniumLookup env u).1 with
      | some i =>
        simp only [tryUrlsWorker, hf, hs] at h
        have := seleniumLookup_nav env u url h
        rw [this]; exact hf
      | none =>
        simp only [tryUrlsWorker, hf, hs] at h
        rcases List.mem_append.1 h with h1 | h2
        · have := seleniumLookup_nav env u url h1
          rw [this]; exact hf
        · exact ih fs url h2

/-- C9: for every task handled by the browser stage, the worker tries the
plain HTTP fast path on each candidate URL first and navigates the browser
to a page only when that HTTP attempt yields no image URL: every URL in the
worker's navigation trace has `tryGetImageUrlRequests` returning `None`. -/
theorem C9_browser_only_after_http_miss (env : Env) (fs : FS) (t : Task)
    (url : String) (h : url ∈ (downloadImageWorker env fs t).2.2) :
    tryGetImageUrlRequests (env.fetchPage url) = none := by
  by_cases hex : (fs (outputPath t)).isSome = true
  · simp [downloadImageWorker, hex] at h
  · by_cases hb : buildBase env.domainKey = ""
    · simp [downloadImageWorker, hex, hb] at h
    · simp only [downloadImageWorker, hex, hb, if_false, Bool.false_eq_true] at h
      exact tryUrlsWorker_nav_fast_none env (outputPath t)
        (candidateUrls (buildBase env.domainKey) t) fs url h

theorem C9_browser_only_after_http_miss_witness :
    ("https://d/produto/p" ∈
      (downloadImageWorker envBrowserOnly emptyFs taskPK).2.2) ∧
    tryGetImageUrlRequests (envBrowserOnly.fetchPage "https://d/produto/p") =
      none := by
  refine ⟨?_, ?_⟩
  · decide
  · exact C9_browser_only_after_http_miss envBrowserOnly emptyFs taskPK
      "https://d/produto/p" (by decide)

/-- C10: when an image URL is extracted for a candidate page but the byte
download fails, the browser-stage worker reports the task failed at once —
its result is `(false, fs1, [])` with the remaining candidates untouched —
while the fast stage's URL loop continues with the remaining candidate
URLs. -/
theorem C10_download_failure_asymmetry (env : Env) (pathOut : String)
    (fs fs1 : FS) (url : String) (rest : List String) (imageUrl : String)
    (hext : tryGetImageUrlRequests (env.fetchPage url) = some imageUrl)
    (hdl : downloadImageBytes (env.fetchImage imageUrl)
      (env.writeBehavior imageUrl) pathOut fs = (false, fs1)) :
    tryUrlsWorker env pathOut fs (url :: rest) = (false, fs1, []) ∧
    tryUrlsHttp env pathOut fs (url :: rest) =
      tryUrlsHttp env pathOut fs1 rest := by
  constructor
  · simp [tryUrlsWorker, hext, hdl]
  · simp [tryUrlsHttp, hext, hdl]

theorem C10_download_failure_asymmetry_witness :
    (tryGetImageUrlRequests (envHttpExtractDlFail.fetchPage "u1") =
      some "https://d/i.jpg" ∧
     downloadImageBytes (envHttpExtractDlFail.fetchImage "https://d/i.jpg")
       (envHttpExtractDlFail.writeBehavior "https://d/i.jpg")
       (outputPath taskPK) emptyFs = (false, emptyFs)) ∧
    tryUrlsWorker envHttpExtractDlFail (outputPath taskPK) emptyFs
      ["u1", "u2"] = (false, emptyFs, []) ∧
    tryUrlsHttp envHttpExtractDlFail (outputPath taskPK) emptyFs
      ["u1", "u2"] =
      tryUrlsHttp envHttpExtractDlFail (outputPath taskPK) emptyFs ["u2"] := by
  have h := C10_download_failure_asymmetry envHttpExtractDlFail
    (outputPath taskPK) emptyFs emptyFs "u1" ["u2"] "https://d/i.jpg"
    rfl rfl
  exact ⟨⟨rfl, rfl⟩, h.1, h.2⟩

theorem truthy_ne_empty {o : Option String} {s : String}
    (h : truthy o = some s) : s ≠ "" := by
  cases o with
  | none => simp [truthy] at h
  | some t =>
    by_cases ht : t = ""
    · simp [truthy, ht] at h
    · simp [truthy, ht] at h
      exact h ▸ ht

theorem dictInsert_mem {m : List (String × String)} {k v : String}
    {q : String × String} (h : q ∈ dictInsert m k v) :
    q = (k, v) ∨ q ∈ m := by
  unfold dictInsert at h
  split at h
  · obtain ⟨p, hp, hq⟩ := List.mem_map.1 h
    by_cases hpk : p.1 = k
    · left; rw [← hq]; simp [hpk]
    · right; rw [← hq]; simpa [hpk] using hp
  · rcases List.mem_append.1 h with h1 | h1
    · right; exact h1
    · left; simpa using h1

theorem insertProduct_sound {m : List (String × String)}
    {p : Option String × Option String}
    (hm : ∀ q ∈ m, q.1 ≠ "" ∧ q.2 ≠ "") :
    ∀ q ∈ insertProduct m p, q.1 ≠ "" ∧ q.2 ≠ "" := by
  intro q hq
  unfold insertProduct at hq
  split at hq
  next pid erp h1 h2 =>
    rcases dictInsert_mem hq with he | hin
    · rw [he]; exact ⟨truthy_ne_empty h1, truthy_ne_empty h2⟩
    · exact hm q hin
  next => exact hm q hq

theorem addProducts_sound :
    ∀ (ps : List (Option String × Option String))
      (m : List (String × String)),
      (∀ q ∈ m, q.1 ≠ "" ∧ q.2 ≠ "") →
      ∀ q ∈ addProducts m ps, q.1 ≠ "" ∧ q.2 ≠ "" := by
  intro ps
  induction ps with
  | nil => intro m hm q hq; exact hm q hq
  | cons p rest ih =>
    intro m hm q hq
    rw [addProducts] at hq
    exact ih (insertProduct m p) (insertProduct_sound hm) q hq

theorem buildProductMapAux_sound :
    ∀ (lists : List (Option (List (Option String × Option String))))
      (m : List (String × String)),
      (∀ q ∈ m, q.1 ≠ "" ∧ q.2 ≠ "") →
      ∀ q ∈ buildProductMapAux m lists, q.1 ≠ "" ∧ q.2 ≠ "" := by
  intro lists
  induction lists with
  | nil => intro m hm q hq; exact hm q hq
  | cons pl rest ih =>
    intro m hm q hq
    cases pl with
    | none => rw [buildProductMapAux] at hq; exact ih m hm q hq
    | some ps =>
      rw [buildProductMapAux] at hq
      exact ih (addProducts m ps) (addProducts_sound ps m hm) q hq

/-- C5: a task with an empty `product_id` or an empty `storage_key` is never
scheduled: every task in the list the pipeline consumes
(`list(product_map.items())` over the map built by
`fetch_products_map.run`) has both fields non-empty, because the task
source inserts a pair only under `if produto_id and codigo_erp`. -/
theorem C5_invalid_tasks_rejected
    (lists : List (Option (List (Option String × Option String))))
    (t : Task) (h : t ∈ tasksOfMap (buildProductMap lists)) :
    t.productId ≠ "" ∧ t.codigoErp ≠ "" := by
  rcases List.mem_map.1 h with ⟨p, hp, ht⟩
  have hq := buildProductMapAux_sound lists [] (by intro q hq; simp at hq) p hp
  rw [← ht]
  exact hq

theorem C5_invalid_tasks_rejected_witness :
    taskPK ∈ tasksOfMap (buildProductMap sampleLists) ∧
    taskPK.productId ≠ "" ∧ taskPK.codigoErp ≠ "" :=
  ⟨by decide, C5_invalid_tasks_rejected sampleLists taskPK (by decide)⟩

theorem dictInsert_keys_nodup {m : List (String × String)} {k v : String}
    (h : (m.map Prod.fst).Nodup) :
    ((dictInsert m k v).map Prod.fst).Nodup := by
  unfold dictInsert
  split
  · have heq : (m.map (fun p => if p.1 = k then (k, v) else p)).map Prod.fst
        = m.map Prod.fst := by
      rw [List.map_map]
      apply List.map_congr_left
      intro p _
      by_cases hpk : p.1 = k
      · simp [hpk]
      · simp [hpk]
    rw [heq]; exact h
  · next hany =>
    have hk : k ∉ m.map Prod.fst := by
      intro hmem
      rcases List.mem_map.1 hmem with ⟨p, hp, hpk⟩
      exact hany (List.any_eq_true.2 ⟨p, hp, by simp [hpk]⟩)
    rw [List.map_append]
    refine h.append (by simp) ?_
    intro a ha hb
    simp at hb
    exact hk (hb ▸ ha)

theorem insertProduct_keys_nodup {m : List (String × String)}
    {p : Option String × Option String}
    (h : (m.map Prod.fst).Nodup) :
    ((insertProduct m p).map Prod.fst).Nodup := by
  unfold insertProduct
  split
  · exact dictInsert_keys_nodup h
  · exact h

theorem addProducts_keys_nodup :
    ∀ (ps : List (Option String × Option String))
      (m : List (String × String)),
      (m.map Prod.fst).Nodup → ((addProducts m ps).map Prod.fst).Nodup := by
  intro ps
  induction ps with
  | nil => intro m hm; exact hm
  | cons p rest ih =>
    intro m hm
    rw [addProducts]
    exact ih (insertProduct m p) (insertProduct_keys_nodup hm)

theorem buildProductMapAux_keys_nodup :
    ∀ (lists : List (Option (List (Option String × Option String))))
      (m : List (String × String)),
      (m.map Prod.fst).Nodup →
      ((buildProductMapAux m lists).map Prod.fst).Nodup := by
  intro lists
  induction lists with
  | nil => intro m hm; exact hm
  | cons pl rest ih =>
    intro m hm
    cases pl with
    | none => rw [buildProductMapAux]; exact ih m hm
    | some ps =>
      rw [buildProductMapAux]
      exact ih (addProducts m ps) (addProducts_keys_nodup ps m hm)

/-- C6 counterexample: the task source is **not** deduplicated by storage
key.  Two distinct product ids sharing one `codigo_erp` yield a task list
in which the storage key `k` appears twice, because the product map is a
dict keyed by `produto_id`. -/
theorem C6_storage_key_dedup_counterexample :
    (tasksOfMap (buildProductMap dupKeyLists)).map Task.codigoErp
      = ["k", "k"] ∧
    ¬ ((tasksOfMap (buildProductMap dupKeyLists)).map
        Task.codigoErp).Nodup := by
  exact ⟨by decide, by decide⟩

/-- C6 amended: the task source deduplicates by `product_id`, not by
`storage_key`: in the task list consumed by the pipeline any given
`product_id` appears at most once (the product map is a Python dict keyed
by `produto_id`), while a storage key may repeat (see the
counterexample). -/
theorem C6_product_id_dedup
    (lists : List (Option (List (Option String × Option String)))) :
    ((tasksOfMap (buildProductMap lists)).map Task.productId).Nodup := by
  have hkeys := buildProductMapAux_keys_nodup lists [] (by simp)
  have heq : (tasksOfMap (buildProductMap lists)).map Task.productId
      = (buildProductMap lists).map Prod.fst := by
    unfold tasksOfMap
    rw [List.map_map]
    rfl
  rw [heq]
  exact hkeys

theorem runSlowStage_length (env : Env) (tasks : List Task) :
    ∀ fs : FS, (runSlowStage env fs tasks).1.length = tasks.length := by
  induction tasks with
  | nil => intro fs; rfl
  | cons t ts ih => intro fs; simp [runSlowStage, ih]

theorem fastFailures_length_le (env : Env) (fs : FS) (tasks : List Task) :
    (((tasks.zip (runFastStage env fs tasks).1).filter
      (fun p => !p.2)).map Prod.fst).length ≤ tasks.length := by
  rw [List.length_map]
  calc ((tasks.zip (runFastStage env fs tasks).1).filter
        (fun p => !p.2)).length
      ≤ (tasks.zip (runFastStage env fs tasks).1).length :=
        List.length_filter_le _ _
    _ ≤ tasks.length := by
        rw [List.length_zip]; exact Nat.min_le_left _ _

/-- C1: when the fast stage resolves a strict subset of the tasks (the
residual set is non-empty) and the browser binaries are present, the
Selenium stage runs over exactly the residual failure set, the final
success count is the fast-stage count plus the slow-stage count, the fast
successes and residuals partition the task list, and no task is counted
twice (the total never exceeds the number of tasks). -/
theorem C1_fast_slow_handoff (env : Env) (fs : FS) (tasks : List Task)
    (b : Bool) (hb : b = true)
    (hres : (runFull env b fs tasks).fastFailures ≠ []) :
    (runFull env b fs tasks).slowRan = true ∧
    (runFull env b fs tasks).slowInput =
      (runFull env b fs tasks).fastFailures ∧
    (runFull env b fs tasks).totalSuccess =
      (runFull env b fs tasks).fastSuccess +
        (runFull env b fs tasks).slowSuccess ∧
    (runFull env b fs tasks).fastSuccess +
      (runFull env b fs tasks).fastFailures.length =
      (runFull env b fs tasks).totalTasks ∧
    (runFull env b fs tasks).totalSuccess ≤
      (runFull env b fs tasks).totalTasks := by
  subst hb
  have hle := fastFailures_length_le env fs tasks
  simp only [runFull] at hres ⊢
  split
  case isTrue hc =>
    refine ⟨rfl, rfl, rfl, ?_, ?_⟩
    · exact Nat.sub_add_cancel hle
    · have hslow : (((runSlowStage env (runFastStage env fs tasks).2
          (((tasks.zip (runFastStage env fs tasks).1).filter
            (fun p => !p.2)).map Prod.fst)).1).filter id).length ≤
          (((tasks.zip (runFastStage env fs tasks).1).filter
            (fun p => !p.2)).map Prod.fst).length := by
        calc _ ≤ ((runSlowStage env (runFastStage env fs tasks).2
              (((tasks.zip (runFastStage env fs tasks).1).filter
                (fun p => !p.2)).map Prod.fst)).1).length :=
              List.length_filter_le _ _
          _ = _ := runSlowStage_length env _ _
      calc tasks.length -
            (((tasks.zip (runFastStage env fs tasks).1).filter
              (fun p => !p.2)).map Prod.fst).length +
            (((runSlowStage env (runFastStage env fs tasks).2
              (((tasks.zip (runFastStage env fs tasks).1).filter
                (fun p => !p.2)).map Prod.fst)).1).filter id).length
          ≤ tasks.length -
            (((tasks.zip (runFastStage env fs tasks).1).filter
              (fun p => !p.2)).map Prod.fst).length +
            (((tasks.zip (runFastStage env fs tasks).1).filter
              (fun p => !p.2)).map Prod.fst).length :=
            Nat.add_le_add_left hslow _
        _ = tasks.length := Nat.sub_add_cancel hle
  case isFalse hc =>
    exfalso
    rw [if_neg hc] at hres
    apply hres
    have hemp : (((tasks.zip (runFastStage env fs tasks).1).filter
        (fun p => !p.2)).map Prod.fst).isEmpty = true := by
      cases hi : (((tasks.zip (runFastStage env fs tasks).1).filter
          (fun p => !p.2)).map Prod.fst).isEmpty
      · exact absurd (by simp [hi]) hc
      · rfl
    simpa [List.isEmpty_iff] using hemp

theorem C1_fast_slow_handoff_witness :
    ((runFull envNoDomain true emptyFs [taskPK]).fastFailures ≠ []) ∧
    (runFull envNoDomain true emptyFs [taskPK]).slowRan = true ∧
    (runFull envNoDomain true emptyFs [taskPK]).slowInput =
      (runFull envNoDomain true emptyFs [taskPK]).fastFailures ∧
    (runFull envNoDomain true emptyFs [taskPK]).totalSuccess =
      (runFull envNoDomain true emptyFs [taskPK]).fastSuccess +
        (runFull envNoDomain true emptyFs [taskPK]).slowSuccess ∧
    (runFull envNoDomain true emptyFs [taskPK]).totalSuccess ≤
      (runFull envNoDomain true emptyFs [taskPK]).totalTasks := by
  have h := C1_fast_slow_handoff envNoDomain emptyFs [taskPK] true rfl
    (by decide)
  exact ⟨by decide, h.1, h.2.1, h.2.2.1, h.2.2.2.2⟩

end Scraper
